import Mathlib

/-!
Verification of the custom-object reconciler in
`commercetools/resource_custom_object.go` (terraform-provider-commercetools).

The Go file implements four Terraform CRUD callbacks over a remote
commercetools "custom object" store, plus a lenient JSON value decoder.
This development shallowly embeds those callbacks as pure Lean functions:

  * Terraform's `schema.ResourceData` is embedded as the `ResourceData`
    structure.  Per the terraform-plugin-sdk semantics, during an Update the
    getter `d.Get(field)` returns the NEW (post-diff) value of the field,
    `d.HasChange(field)` compares the prior state with the new value, and
    `d.Set` / `d.SetId` overwrite the current value (a subsequent `d.Get`
    observes the written value).  `ResourceData` therefore carries both the
    prior identity fields (for `HasChange`) and the current fields (for
    `Get`/`Set`).
  * The commercetools remote store (external SDK `CustomObjectCreate`,
    `CustomObjectGetWithContainerAndKey`,
    `CustomObjectDeleteWithContainerAndKey`) is modelled from the spec's
    RemoteStore client interface as an executable store of versioned
    objects, with a boolean fault input per call injecting a transport
    failure.  For Read and Delete, whose claims are about how the callback
    handles each possible client outcome, the client results are injected
    directly as parameters.
  * Go's `json.Unmarshal` (external stdlib) is abstracted by its outcome on
    the raw string: `none` when the string is malformed JSON, `some v` when
    it parses to the JSON value `v`; unmarshalling into a
    `map[string]interface` fills the map only when `v` is a JSON object and
    on any other outcome reports an error and leaves the map empty.
-/

/-- JSON document values, the semantic form of the user-supplied raw value
string and of the `Value` field of a remote custom object. -/
inductive Json where
  | null : Json
  | bool : Bool → Json
  | num : Int → Json
  | str : String → Json
  | arr : List Json → Json
  | obj : List (String × Json) → Json

/-- Recognizer for JSON objects, used to state which parse outcomes survive
Go's unmarshal-into-map. -/
def Json.isObj : Json → Bool
  | Json.obj _ => true
  | _ => false

/-- Embeds `_decodeCustomObjectValue` (resource_custom_object.go lines
179-183).  The Go function allocates an empty `map[string]interface`, calls
`json.Unmarshal` into it discarding the returned error, and returns the map.
The argument is the parse outcome of the raw string (see the file header):
when the string is malformed (`none`) or parses to a non-object JSON value,
`json.Unmarshal` reports an error — which the Go code ignores — and the map
stays empty, so the function returns the empty document. -/
def _decodeCustomObjectValue (parsed : Option Json) : Json :=
  match parsed with
  | some (Json.obj fields) => Json.obj fields
  | _ => Json.obj []

/-- Errors returned by the external commercetools client, as the Go code
distinguishes them: `errorResponse code` is a `commercetools.ErrorResponse`
with its HTTP status code (404 marks NotFound), `other` is any other Go
error, and `wrapped op container key e` is the result of the Go code's own
`fmt.Errorf("could not OP custom object with container C and key K: w", e)`
wrapping in `resourceCustomObjectDelete`. -/
inductive GoError where
  | errorResponse : Nat → GoError
  | other : String → GoError
  | wrapped : String → String → String → GoError → GoError
deriving Repr, DecidableEq

/-- Tests whether a client error is a NotFound (404) `ErrorResponse`, the
condition checked by `resourceCustomObjectRead` lines 79-80. -/
def is404 : GoError → Bool
  | GoError.errorResponse code => code == 404
  | _ => false

/-- A remote custom object as returned by the commercetools client: the
fields of `commercetools.CustomObject` used by the Go code (`ID`,
`Container`, `Key`, `Value`, `Version`). -/
structure CustomObject where
  id : String
  container : String
  key : String
  value : Json
  version : Nat

/-- The fields of `commercetools.CustomObjectDraft` built by the Go code.
`version = 0` embeds a draft whose `Version` field is left unset (Go zero
value), the "create new object" form; remote-assigned versions start at 1. -/
structure CustomObjectDraft where
  container : String
  key : String
  value : Json
  version : Nat

/-- Embedding of Terraform's `schema.ResourceData` for this resource.
`oldContainer`/`oldKey` are the prior-state identity (what `d.HasChange`
compares against); `container`, `key`, `value`, `version` are the current
values returned by `d.Get` and overwritten by `d.Set`; `id` is the opaque
resource identifier (`d.Id`/`d.SetId`).  The `value` field holds the parse
outcome of the raw value string (see the file header). -/
structure ResourceData where
  id : String
  oldContainer : String
  oldKey : String
  container : String
  key : String
  value : Option Json
  version : Nat

/-- Embeds `d.HasChange("container")`: the prior container differs from the
current one. -/
def hasChangeContainer (d : ResourceData) : Bool :=
  d.oldContainer != d.container

/-- Embeds `d.HasChange("key")`. -/
def hasChangeKey (d : ResourceData) : Bool :=
  d.oldKey != d.key

/-- The remote store state: the live custom objects (at most one per
(container, key) pair) and a counter for assigning fresh remote ids. -/
structure RemoteStore where
  objects : List CustomObject
  nextId : Nat

/-- The live object at a (container, key) identity, if any. -/
def RemoteStore.find (st : RemoteStore) (c k : String) : Option CustomObject :=
  st.objects.find? (fun o => o.container == c && o.key == k)

/-- Modelled from the spec (RemoteStore client interface, CreateOrUpdate):
with `version` omitted (embedded as 0) it creates a new object — failing if
one already exists at that identity — and returns it with version 1 and a
fresh remote id; with `version` supplied it updates the existing object only
when the version matches, returning it with the version incremented; any
mismatch or a missing object is a fatal error response.  `fault = true`
injects a transport failure. -/
def storeCreateOrUpdate (st : RemoteStore) (fault : Bool) (draft : CustomObjectDraft) :
    RemoteStore × Except GoError CustomObject :=
  if fault then (st, Except.error (GoError.other "transport failure")) else
  match RemoteStore.find st draft.container draft.key with
  | none =>
      if draft.version = 0 then
        let obj : CustomObject :=
          ⟨toString st.nextId, draft.container, draft.key, draft.value, 1⟩
        (⟨obj :: st.objects, st.nextId + 1⟩, Except.ok obj)
      else (st, Except.error (GoError.errorResponse 404))
  | some old =>
      if draft.version = 0 then (st, Except.error (GoError.errorResponse 409))
      else if draft.version = old.version then
        let obj : CustomObject := { old with value := draft.value, version := old.version + 1 }
        (⟨st.objects.map (fun o =>
            if o.container == draft.container && o.key == draft.key then obj else o),
          st.nextId⟩, Except.ok obj)
      else (st, Except.error (GoError.errorResponse 409))

/-- Modelled from the spec (RemoteStore client interface, DeleteByIdentity):
deletes the object at the identity; with `force = false` the supplied
version must match the live one, with `force = true` deletion proceeds
regardless; a missing object is a 404 error.  `fault = true` injects a
transport failure. -/
def storeDelete (st : RemoteStore) (fault : Bool) (c k : String) (version : Nat)
    (force : Bool) : RemoteStore × Except GoError Unit :=
  if fault then (st, Except.error (GoError.other "transport failure")) else
  match RemoteStore.find st c k with
  | none => (st, Except.error (GoError.errorResponse 404))
  | some o =>
      if force || o.version == version then
        (⟨st.objects.filter (fun x => !(x.container == c && x.key == k)), st.nextId⟩,
         Except.ok ())
      else (st, Except.error (GoError.errorResponse 409))

/-- Result of `resourceCustomObjectCreate`: the resource data after the
callback, the remote store after the callback, and the callback's returned
error (Go `error`, `nil` embedded as `ok`). -/
structure CreateResult where
  data : ResourceData
  store : RemoteStore
  res : Except GoError Unit

/-- Embeds `resourceCustomObjectCreate` (lines 51-69): decode the value,
build a draft from the current container and key with no version, call
`CustomObjectCreate`; on error return it; on success `SetId` and set
`version` from the returned object. -/
def resourceCustomObjectCreate (d : ResourceData) (st : RemoteStore) (fault : Bool) :
    CreateResult :=
  let value := _decodeCustomObjectValue d.value
  let draft : CustomObjectDraft := ⟨d.container, d.key, value, 0⟩
  match storeCreateOrUpdate st fault draft with
  | (st1, Except.error e) => ⟨d, st1, Except.error e⟩
  | (st1, Except.ok obj) =>
      ⟨{ d with id := obj.id, version := obj.version }, st1, Except.ok ()⟩

/-- Embeds `resourceCustomObjectRead` (lines 71-100) as a pure function of
the client fetch outcome (`CustomObjectGetWithContainerAndKey` returns a
possibly-nil object and a possibly-nil error): a 404 `ErrorResponse` clears
the id and succeeds, any other error is returned unchanged, a nil object
with nil error clears the id, and a fetched object overwrites `container`,
`key`, `value` and `version`. -/
def resourceCustomObjectRead (d : ResourceData)
    (fetch : Except GoError (Option CustomObject)) :
    ResourceData × Except GoError Unit :=
  match fetch with
  | Except.error e =>
      match e with
      | GoError.errorResponse code =>
          if code = 404 then ({ d with id := "" }, Except.ok ())
          else (d, Except.error (GoError.errorResponse code))
      | e => (d, Except.error e)
  | Except.ok none => ({ d with id := "" }, Except.ok ())
  | Except.ok (some obj) =>
      ({ d with container := obj.container, key := obj.key,
                value := some obj.value, version := obj.version },
       Except.ok ())

/-- Observable calls made by a callback, in order: the per-resource mutex
acquire/release (`ctMutexKV.Lock`/`Unlock` keyed by `d.Id()`) and the three
remote client calls with the arguments the Go code passes. -/
inductive Event where
  | lock : String → Event
  | unlock : String → Event
  | fetchCall : String → String → Event
  | createCall : String → String → Nat → Event
  | deleteCall : String → String → Nat → Bool → Event
deriving Repr, DecidableEq

/-- Outcome of `resourceCustomObjectDelete`: a normal return with the Go
error value, or the run-time panic raised when the nil fetched object is
dereferenced at line 172 (`customObject.Version` with `customObject == nil`).
In Go the deferred mutex unlock still runs when a panic unwinds. -/
inductive DeleteOutcome where
  | ret : Except GoError Unit → DeleteOutcome
  | nilDeref : DeleteOutcome
deriving Repr

/-- Embeds `resourceCustomObjectDelete` (lines 158-177) as a pure function
of the two client outcomes, returning the event trace and the outcome.  The
Go code locks `ctMutexKV` on `d.Id()` with a deferred unlock, fetches the
object by the current container and key, wraps any fetch error with the
identity and fails, then — dereferencing the fetched object without a nil
check — deletes with the freshly fetched version and `force = false`,
wrapping any delete error with the identity. -/
def resourceCustomObjectDelete (d : ResourceData)
    (fetch : Except GoError (Option CustomObject)) (del : Except GoError Unit) :
    List Event × DeleteOutcome :=
  match fetch with
  | Except.error e =>
      ([Event.lock d.id, Event.fetchCall d.container d.key, Event.unlock d.id],
       DeleteOutcome.ret (Except.error (GoError.wrapped "get" d.container d.key e)))
  | Except.ok none =>
      ([Event.lock d.id, Event.fetchCall d.container d.key, Event.unlock d.id],
       DeleteOutcome.nilDeref)
  | Except.ok (some obj) =>
      match del with
      | Except.error e =>
          ([Event.lock d.id, Event.fetchCall d.container d.key,
            Event.deleteCall d.container d.key obj.version false, Event.unlock d.id],
           DeleteOutcome.ret (Except.error (GoError.wrapped "delete" d.container d.key e)))
      | Except.ok _ =>
          ([Event.lock d.id, Event.fetchCall d.container d.key,
            Event.deleteCall d.container d.key obj.version false, Event.unlock d.id],
           DeleteOutcome.ret (Except.ok ()))

/-- Transport-fault inputs for the (up to) two client calls made by
`resourceCustomObjectUpdate`, in call order. -/
structure UpdateFaults where
  createFault : Bool
  deleteFault : Bool
deriving Repr, DecidableEq

/-- Result of `resourceCustomObjectUpdate`: resource data and remote store
after the callback, the trace of client calls with the arguments the Go
code passes, and the returned error. -/
structure UpdateResult where
  data : ResourceData
  store : RemoteStore
  trace : List Event
  res : Except GoError Unit

/-- Embeds `resourceCustomObjectUpdate` (lines 102-156).  When `container`
or `key` changed, the Go code builds a draft from `d.Get("container")` and
`d.Get("key")` — the NEW identity — with no version and calls
`CustomObjectCreate`; on success it does `SetId` and sets `version` from
the created object, then calls `CustomObjectDeleteWithContainerAndKey` with
`d.Get("container")`, `d.Get("key")` and `d.Get("version")` — still the new
identity, and the version just written — with `force = true`, and only logs
any error from that delete.  Otherwise it calls `CustomObjectCreate` with a
draft carrying the current version and adopts the returned id and
version. -/
def resourceCustomObjectUpdate (d : ResourceData) (st : RemoteStore)
    (f : UpdateFaults) : UpdateResult :=
  let value := _decodeCustomObjectValue d.value
  if hasChangeContainer d || hasChangeKey d then
    let draft : CustomObjectDraft := ⟨d.container, d.key, value, 0⟩
    match storeCreateOrUpdate st f.createFault draft with
    | (st1, Except.error e) =>
        ⟨d, st1, [Event.createCall d.container d.key 0], Except.error e⟩
    | (st1, Except.ok obj) =>
        let d1 : ResourceData := { d with id := obj.id, version := obj.version }
        let st2 := (storeDelete st1 f.deleteFault d1.container d1.key d1.version true).1
        ⟨d1, st2,
         [Event.createCall d.container d.key 0,
          Event.deleteCall d1.container d1.key d1.version true],
         Except.ok ()⟩
  else
    let draft : CustomObjectDraft := ⟨d.container, d.key, value, d.version⟩
    match storeCreateOrUpdate st f.createFault draft with
    | (st1, Except.error e) =>
        ⟨d, st1, [Event.createCall d.container d.key d.version], Except.error e⟩
    | (st1, Except.ok obj) =>
        ⟨{ d with id := obj.id, version := obj.version }, st1,
         [Event.createCall d.container d.key d.version], Except.ok ()⟩

/-- Concrete resource data for an identity-changing Update: prior identity
(c1, a), new identity (c1, b), last-known version 5. -/
def dRename : ResourceData :=
  ⟨"old-remote-id", "c1", "a", "c1", "b", some (Json.obj []), 5⟩

/-- The live remote object at the old identity (c1, a), version 5. -/
def oldObjRename : CustomObject := ⟨"old-remote-id", "c1", "a", Json.obj [], 5⟩

/-- Concrete remote store holding only the old object (c1, a). -/
def stRename : RemoteStore := ⟨[oldObjRename], 7⟩

/-- Concrete resource data with an unchanged identity, used to instantiate
hypotheses in witnesses. -/
def dSample : ResourceData := ⟨"rid", "c1", "k1", "c1", "k1", some (Json.obj []), 3⟩

/-- Helper: the returned error and the remote store of Create depend on the
raw value string only through the decoder, so two values with equal decodings
give the same outcome and store. -/
theorem createDecodeCongr (i oc ok0 c k : String) (ver : Nat) (st : RemoteStore)
    (b : Bool) (v w : Option Json)
    (h : _decodeCustomObjectValue v = _decodeCustomObjectValue w) :
    (resourceCustomObjectCreate ⟨i, oc, ok0, c, k, v, ver⟩ st b).res
      = (resourceCustomObjectCreate ⟨i, oc, ok0, c, k, w, ver⟩ st b).res
    ∧ (resourceCustomObjectCreate ⟨i, oc, ok0, c, k, v, ver⟩ st b).store
      = (resourceCustomObjectCreate ⟨i, oc, ok0, c, k, w, ver⟩ st b).store := by
  simp only [resourceCustomObjectCreate, h]
  cases hsc : storeCreateOrUpdate st b ⟨c, k, _decodeCustomObjectValue w, 0⟩ with
  | mk st1 r => cases r <;> simp

/-- Helper: the returned error and the remote store of Update likewise depend
on the raw value string only through the decoder. -/
theorem updateDecodeCongr (i oc ok0 c k : String) (ver : Nat) (st : RemoteStore)
    (f : UpdateFaults) (v w : Option Json)
    (h : _decodeCustomObjectValue v = _decodeCustomObjectValue w) :
    (resourceCustomObjectUpdate ⟨i, oc, ok0, c, k, v, ver⟩ st f).res
      = (resourceCustomObjectUpdate ⟨i, oc, ok0, c, k, w, ver⟩ st f).res
    ∧ (resourceCustomObjectUpdate ⟨i, oc, ok0, c, k, v, ver⟩ st f).store
      = (resourceCustomObjectUpdate ⟨i, oc, ok0, c, k, w, ver⟩ st f).store := by
  simp only [resourceCustomObjectUpdate, hasChangeContainer, hasChangeKey, h]
  cases hb : (oc != c || ok0 != k) with
  | true =>
      simp only [if_true]
      cases hsc : storeCreateOrUpdate st f.createFault ⟨c, k, _decodeCustomObjectValue w, 0⟩ with
      | mk st1 r => cases r <;> simp
  | false =>
      simp only [Bool.false_eq_true, if_false]
      cases hsc : storeCreateOrUpdate st f.createFault ⟨c, k, _decodeCustomObjectValue w, ver⟩ with
      | mk st1 r => cases r <;> simp

/-- Claim C1: contrary to the claim, an identity-changing Update deletes at
the NEW (container, key) pair with the NEW object's just-set version, not at
the old identity with the old version: renaming (c1, a) — live at version
5 — to (c1, b) issues a create at ("c1", "b") followed by a delete call at
("c1", "b") with version 1 and force = true, and the object at the old
identity (c1, a) is still live afterwards at version 5. -/
theorem updateIdentityChangeDeletesAtNewIdentity :
    (resourceCustomObjectUpdate dRename stRename ⟨false, false⟩).trace
      = [Event.createCall "c1" "b" 0, Event.deleteCall "c1" "b" 1 true]
    ∧ RemoteStore.find (resourceCustomObjectUpdate dRename stRename ⟨false, false⟩).store
        "c1" "a" = some oldObjRename :=
  ⟨rfl, rfl⟩

/-- Claim C2: contrary to the claim, after an Update renaming (c1, a) to
(c1, b) returns successfully with no transport faults, the object at the new
identity (c1, b) does NOT exist in the remote store — the delete step, aimed
at the new identity by mistake, removed the object just created there. -/
theorem updateIdentityChangeNewObjectAbsent :
    (resourceCustomObjectUpdate dRename stRename ⟨false, false⟩).res = Except.ok ()
    ∧ RemoteStore.find (resourceCustomObjectUpdate dRename stRename ⟨false, false⟩).store
        "c1" "b" = none :=
  ⟨rfl, rfl⟩

/-- Claim C3: for every identity-changing Update whose create succeeds (no
create fault and the new identity free in the store), the operation returns
success and the local state carries the new object's remote id and version,
for both outcomes of the inner delete (`b` ranges over the delete's
transport-fault input): the delete's failure never surfaces as an error and
never rolls the adopted id and version back. -/
theorem updateSwallowsDeleteFailure (d : ResourceData) (st : RemoteStore) (b : Bool)
    (hchg : (hasChangeContainer d || hasChangeKey d) = true)
    (hfree : RemoteStore.find st d.container d.key = none) :
    (resourceCustomObjectUpdate d st ⟨false, b⟩).res = Except.ok ()
    ∧ (resourceCustomObjectUpdate d st ⟨false, b⟩).data.id = toString st.nextId
    ∧ (resourceCustomObjectUpdate d st ⟨false, b⟩).data.version = 1 := by
  simp [resourceCustomObjectUpdate, hchg, storeCreateOrUpdate, hfree]

/-- Claim C3 witness: renaming (c1, a) to (c1, b) against an empty remote
store with the delete call transport-faulted still returns success and the
local state holds the created object's id and version 1. -/
theorem updateSwallowsDeleteFailureWitness :
    (resourceCustomObjectUpdate dRename ⟨[], 0⟩ ⟨false, true⟩).res = Except.ok ()
    ∧ (resourceCustomObjectUpdate dRename ⟨[], 0⟩ ⟨false, true⟩).data.id
        = toString (RemoteStore.nextId ⟨[], 0⟩)
    ∧ (resourceCustomObjectUpdate dRename ⟨[], 0⟩ ⟨false, true⟩).data.version = 1 :=
  updateSwallowsDeleteFailure dRename ⟨[], 0⟩ true rfl rfl

/-- Claim C4: Delete first fetches the object; a fetch error `e` (of any
kind, 404 included) makes the whole operation fail with `e` wrapped with the
container and key and no remote delete call is issued; when the fetch yields
an object, the remote delete is invoked with the freshly fetched version and
force = false, and its failure is likewise fatal, wrapped with the
identity. -/
theorem deleteFetchThenDeleteWrapsErrors (d : ResourceData) (e : GoError)
    (obj : CustomObject) (del : Except GoError Unit) :
    resourceCustomObjectDelete d (Except.error e) del
      = ([Event.lock d.id, Event.fetchCall d.container d.key, Event.unlock d.id],
         DeleteOutcome.ret (Except.error (GoError.wrapped "get" d.container d.key e)))
    ∧ resourceCustomObjectDelete d (Except.ok (some obj)) (Except.ok ())
      = ([Event.lock d.id, Event.fetchCall d.container d.key,
          Event.deleteCall d.container d.key obj.version false, Event.unlock d.id],
         DeleteOutcome.ret (Except.ok ()))
    ∧ resourceCustomObjectDelete d (Except.ok (some obj)) (Except.error e)
      = ([Event.lock d.id, Event.fetchCall d.container d.key,
          Event.deleteCall d.container d.key obj.version false, Event.unlock d.id],
         DeleteOutcome.ret (Except.error (GoError.wrapped "delete" d.container d.key e))) :=
  ⟨rfl, rfl, rfl⟩

/-- Claim C5: a Read whose fetch fails with a 404 error response clears the
local resource id and returns success; a fetch error that is not a 404
error response is returned to the caller unchanged. -/
theorem readNotFoundClearsOtherErrorsPropagate (d : ResourceData) (e : GoError)
    (h : is404 e = false) :
    resourceCustomObjectRead d (Except.error (GoError.errorResponse 404))
      = ({ d with id := "" }, Except.ok ())
    ∧ resourceCustomObjectRead d (Except.error e) = (d, Except.error e) := by
  refine ⟨rfl, ?_⟩
  cases e with
  | errorResponse code =>
      simp only [is404, beq_eq_false_iff_ne, ne_eq] at h
      simp [resourceCustomObjectRead, h]
  | other s => rfl
  | wrapped a b c e => rfl

/-- Claim C5 witness: at concrete data, the 404 fetch error clears the id
and succeeds, and a non-404 error is propagated unchanged. -/
theorem readNotFoundClearsOtherErrorsPropagateWitness :
    resourceCustomObjectRead dSample (Except.error (GoError.errorResponse 404))
      = ({ dSample with id := "" }, Except.ok ())
    ∧ resourceCustomObjectRead dSample (Except.error (GoError.other "boom"))
      = (dSample, Except.error (GoError.other "boom")) :=
  readNotFoundClearsOtherErrorsPropagate dSample (GoError.other "boom") rfl

/-- Claim C6: the value decoder is total and never reports an error — a
malformed value string (parse outcome `none`) decodes to the empty
document — and Create and Update behave on a malformed value exactly as on
the well-formed empty-object value: the same returned error (namely none)
and the same remote store, so neither operation ever fails because the
value is malformed. -/
theorem decodeMalformedNeverFails :
    _decodeCustomObjectValue none = Json.obj []
    ∧ (∀ (i oc ok0 c k : String) (ver : Nat) (st : RemoteStore) (b : Bool),
        (resourceCustomObjectCreate ⟨i, oc, ok0, c, k, none, ver⟩ st b).res
          = (resourceCustomObjectCreate ⟨i, oc, ok0, c, k, some (Json.obj []), ver⟩ st b).res
        ∧ (resourceCustomObjectCreate ⟨i, oc, ok0, c, k, none, ver⟩ st b).store
          = (resourceCustomObjectCreate ⟨i, oc, ok0, c, k, some (Json.obj []), ver⟩ st b).store)
    ∧ (∀ (i oc ok0 c k : String) (ver : Nat) (st : RemoteStore) (f : UpdateFaults),
        (resourceCustomObjectUpdate ⟨i, oc, ok0, c, k, none, ver⟩ st f).res
          = (resourceCustomObjectUpdate ⟨i, oc, ok0, c, k, some (Json.obj []), ver⟩ st f).res
        ∧ (resourceCustomObjectUpdate ⟨i, oc, ok0, c, k, none, ver⟩ st f).store
          = (resourceCustomObjectUpdate ⟨i, oc, ok0, c, k, some (Json.obj []), ver⟩ st f).store) :=
  ⟨rfl,
   fun i oc ok0 c k ver st b => createDecodeCongr i oc ok0 c k ver st b none (some (Json.obj [])) rfl,
   fun i oc ok0 c k ver st f => updateDecodeCongr i oc ok0 c k ver st f none (some (Json.obj [])) rfl⟩

/-- Claim C7: a Read whose fetch succeeds with an object overwrites the four
local fields container, key, value and version with the fetched values and
succeeds; a Read whose fetch succeeds with no object clears the local
resource id and succeeds. -/
theorem readOverwritesAllFieldsOrClearsId (d : ResourceData) (obj : CustomObject) :
    resourceCustomObjectRead d (Except.ok (some obj))
      = ({ d with container := obj.container, key := obj.key,
                  value := some obj.value, version := obj.version }, Except.ok ())
    ∧ resourceCustomObjectRead d (Except.ok none)
      = ({ d with id := "" }, Except.ok ()) :=
  ⟨rfl, rfl⟩

/-- Claim C8: on every execution of Delete — every fetch outcome and every
delete outcome, the nil-object panic path included, since Go runs the
deferred unlock while a panic unwinds — the first event is acquiring the
per-resource lock keyed by the local resource id, so the lock is held before
any remote call, and the last event is releasing that lock, so no exit path
leaves it held. -/
theorem deleteLockFirstUnlockLast (d : ResourceData)
    (fetch : Except GoError (Option CustomObject)) (del : Except GoError Unit) :
    (resourceCustomObjectDelete d fetch del).1.head? = some (Event.lock d.id)
    ∧ (resourceCustomObjectDelete d fetch del).1.getLast? = some (Event.unlock d.id) := by
  cases fetch with
  | error e => exact ⟨rfl, rfl⟩
  | ok o =>
      cases o with
      | none => exact ⟨rfl, rfl⟩
      | some obj =>
          cases del with
          | error e => exact ⟨rfl, rfl⟩
          | ok u => exact ⟨rfl, rfl⟩

/-- Claim C9: when Delete's fetch returns no object together with no error,
the code dereferences the absent object to read its version without a nil
check, so the operation does not reach its delete call or its error return:
the outcome is the nil-dereference panic, whatever the delete call would
have answered. -/
theorem deleteNilFetchDereferences (d : ResourceData) (del : Except GoError Unit) :
    (resourceCustomObjectDelete d (Except.ok none) del).2 = DeleteOutcome.nilDeref :=
  rfl

/-- Claim C10: every well-formed JSON value that is not an object — number,
string, boolean, array or null — decodes to the empty document, and a Create
with such a value behaves exactly like a Create with the empty-object value
(same returned error and same remote store), silently storing the empty
document in place of the user-supplied value. -/
theorem decodeNonObjectYieldsEmpty (v : Json) (h : v.isObj = false) :
    _decodeCustomObjectValue (some v) = Json.obj []
    ∧ ∀ (i oc ok0 c k : String) (ver : Nat) (st : RemoteStore) (b : Bool),
        (resourceCustomObjectCreate ⟨i, oc, ok0, c, k, some v, ver⟩ st b).res
          = (resourceCustomObjectCreate ⟨i, oc, ok0, c, k, some (Json.obj []), ver⟩ st b).res
        ∧ (resourceCustomObjectCreate ⟨i, oc, ok0, c, k, some v, ver⟩ st b).store
          = (resourceCustomObjectCreate ⟨i, oc, ok0, c, k, some (Json.obj []), ver⟩ st b).store := by
  have hd : _decodeCustomObjectValue (some v) = Json.obj [] := by
    cases v with
    | obj fields => simp [Json.isObj] at h
    | null => rfl
    | bool b0 => rfl
    | num n => rfl
    | str s => rfl
    | arr l => rfl
  exact ⟨hd, fun i oc ok0 c k ver st b =>
    createDecodeCongr i oc ok0 c k ver st b (some v) (some (Json.obj [])) hd⟩

/-- Claim C10 witness: the JSON number 5 decodes to the empty document, and
a concrete Create with it returns the same outcome as one with the
empty-object value. -/
theorem decodeNonObjectYieldsEmptyWitness :
    _decodeCustomObjectValue (some (Json.num 5)) = Json.obj []
    ∧ (resourceCustomObjectCreate ⟨"rid", "c", "k", "c", "k", some (Json.num 5), 0⟩
         ⟨[], 0⟩ false).res
      = (resourceCustomObjectCreate ⟨"rid", "c", "k", "c", "k", some (Json.obj []), 0⟩
         ⟨[], 0⟩ false).res :=
  ⟨(decodeNonObjectYieldsEmpty (Json.num 5) rfl).1,
   ((decodeNonObjectYieldsEmpty (Json.num 5) rfl).2 "rid" "c" "k" "c" "k" 0 ⟨[], 0⟩ false).1⟩
